import Mathlib

/-!
Verification of the esp32-ota-update core against its specification.

The development shallowly embeds the three core components:
* `OTAModel`  — the OTA update engine (`src/lib/OTACore/OTACore.cpp`),
  including the RTC-memory persistent record and its XOR checksum;
* `NMModel`   — the connectivity supervisor (`src/lib/NetworkManager/NetworkManager.cpp`),
  its reconnect policy and notify-on-change status updates;
* `WebModel`  — the upload ingestion lambda of
  `src/lib/OTAWebServer/OTAWebServer.cpp` (`setupRoutes`, upload handler).

Platform primitives (the ESP32 `Update` library, WiFi driver, clock) are
modelled by explicit parameters: whether `Update.begin` / `Update.write` /
`Update.end` succeed is passed in as a boolean, the free partition size and the
tick time are arguments.  Calls into the platform are logged in a `platOps`
trace so that theorems can speak about which primitives were invoked.
Machine integers are modelled as `Nat` with explicit field widths where the
binary layout of the persisted record matters.
-/

namespace OTAModel

/-- `OTACore::Status` from `OTACore.h`. -/
inductive Status where
  | IDLE
  | RECEIVING
  | COMPLETE
  | ERROR
  | REBOOTING
deriving DecidableEq

/-- The underlying integer value of the `enum class Status` constant, as it
is stored inside the persisted `RTCData` record. -/
def Status.toCode : Status → Nat
  | .IDLE => 0
  | .RECEIVING => 1
  | .COMPLETE => 2
  | .ERROR => 3
  | .REBOOTING => 4

/-- Reading a stored 32-bit enum cell back as a `Status`.  The C++ code copies
the raw bytes; on the values actually produced by `Status.toCode` this is the
inverse of `toCode`.  Values outside `0..4` can only be seen on a corrupted
record, which the CRC check rejects before the field is interpreted, so the
catch-all branch is never reached on validated data. -/
def decodeStatus : Nat → Status
  | 0 => .IDLE
  | 1 => .RECEIVING
  | 2 => .COMPLETE
  | 3 => .ERROR
  | 4 => .REBOOTING
  | _ => .IDLE

/-- `OTACore::RTCData` (`OTACore.h` lines 127-133), as raw field contents:
`magic : uint32_t`, `otaEnabled : bool` (one byte), `status : Status`
(32-bit underlying), `progress : int` (32 bits), `crc : uint32_t`. -/
structure RTCData where
  magic : Nat
  otaEnabled : Nat
  status : Nat
  progress : Nat
  crc : Nat
deriving DecidableEq

/-- `OTACore::RTC_MAGIC = 0xDEADBEEF`. -/
def RTC_MAGIC : Nat := 0xDEADBEEF

/-- `OTACore::calculateCRC` (`OTACore.cpp` lines 269-277): XOR of the four
data fields of the in-memory record, each taken as `uint32_t`. -/
def calculateCRC (r : RTCData) : Nat :=
  r.magic ^^^ r.otaEnabled ^^^ r.status ^^^ r.progress

/-- A platform (`Update` library / `esp_ota`) primitive invocation, logged so
theorems can state which primitives an operation did or did not call. -/
inductive PlatOp where
  | opOpen (size : Nat)
  | opWrite (len : Nat)
  | opCommit
  | opAbort
deriving DecidableEq

/-- One invocation of the engine status callback
(`OTACore::updateCallback`). -/
structure Notif where
  status : Status
  progress : Nat
  msg : String
deriving DecidableEq

/-- The complete state of the embedded engine: the static members of
`OTACore` (`_status`, `_progress`, `_lastError`, `_persistent`, `_rtcData`),
the RTC memory cell `rtc_ota_data` (`cell`), the internal `Update` library
counters (`platTotal`, `platWritten`), and the two traces. -/
structure OTAState where
  status : Status
  progress : Nat
  lastError : String
  persistent : Bool
  rtcData : RTCData
  cell : RTCData
  platTotal : Nat
  platWritten : Nat
  notifs : List Notif
  platOps : List PlatOp
deriving DecidableEq

/-- `OTACore::updateCallback` (`OTACore.cpp` lines 263-267): forwards to the
registered callback; modelled as appending to the notification trace. -/
def updateCallback (s : OTAState) (st : Status) (p : Nat) (m : String) : OTAState :=
  { s with notifs := s.notifs ++ [⟨st, p, m⟩] }

/-- `OTACore::saveToRTC` (`OTACore.cpp` lines 232-237): refresh the in-memory
CRC of the record and copy the whole record into the RTC cell.  No-op when
persistence is disabled. -/
def saveToRTC (s : OTAState) : OTAState :=
  if s.persistent = false then s
  else
    let r : RTCData := { s.rtcData with crc := calculateCRC s.rtcData }
    { s with rtcData := r, cell := r }

/-- `OTACore::loadFromRTC` (`OTACore.cpp` lines 239-261): copy the RTC cell
into the in-memory record, validate magic then CRC, and on success restore
`_status` and `_progress` from the record.  Returns the success flag. -/
def loadFromRTC (s : OTAState) : OTAState × Bool :=
  if s.persistent = false then (s, false)
  else
    let s1 := { s with rtcData := s.cell }
    if s1.rtcData.magic ≠ RTC_MAGIC then (s1, false)
    else if s1.rtcData.crc ≠ calculateCRC s1.rtcData then (s1, false)
    else ({ s1 with status := decodeStatus s1.rtcData.status,
                    progress := s1.rtcData.progress }, true)

/-- `OTACore::begin` (`OTACore.cpp` lines 17-45): reset the in-memory state,
then either restore the persisted record or initialize a fresh one
`{magic := RTC_MAGIC, otaEnabled := true, status := IDLE, progress := 0}` and
persist it.  Registering the `Update.onProgress` lambda is modelled inside
`writeData`. -/
def beginCore (enableP : Bool) (s : OTAState) : OTAState :=
  let s0 := { s with persistent := enableP, status := Status.IDLE,
                     progress := 0, lastError := "" }
  if enableP then
    let p := loadFromRTC s0
    if p.2 then p.1
    else
      let s2 := { p.1 with rtcData := { magic := RTC_MAGIC, otaEnabled := 1,
                                        status := Status.IDLE.toCode, progress := 0,
                                        crc := p.1.rtcData.crc } }
      saveToRTC s2
  else s0

/-- `OTACore::startUpdate` (`OTACore.cpp` lines 51-102).  `avail` is the
value `getAvailableSize()` returns (the free update-partition size) and
`openOk` is whether `Update.begin(size, U_FLASH)` succeeds; the `md5`
argument is forwarded to the platform and does not affect engine state. -/
def startUpdate (size : Nat) (md5 : String) (avail : Nat) (openOk : Bool)
    (s : OTAState) : OTAState × Bool :=
  if s.status ≠ Status.IDLE then
    ({ s with lastError := "OTA already in progress" }, false)
  else if size = 0 then
    ({ s with lastError := "Invalid update size" }, false)
  else if avail < size then
    ({ s with lastError := "Update size exceeds available space" }, false)
  else
    let s1 := { s with platOps := s.platOps ++ [PlatOp.opOpen size] }
    if openOk = false then
      let s2 := { s1 with lastError := "Failed to start update",
                          status := Status.ERROR }
      (updateCallback s2 Status.ERROR 0 s2.lastError, false)
    else
      let s2 := { s1 with platTotal := size, platWritten := 0,
                          status := Status.RECEIVING, progress := 0,
                          lastError := "" }
      let s3 :=
        if s2.persistent then
          saveToRTC { s2 with
            rtcData := { s2.rtcData with status := Status.RECEIVING.toCode,
                                         progress := 0 } }
        else s2
      (updateCallback s3 Status.RECEIVING 0 "Starting OTA update...", true)

/-- `OTACore::writeData` (`OTACore.cpp` lines 104-130).  `dataValid` models
the `!data` null check, `writeOk` whether `Update.write` accepts all `len`
bytes (on failure it reports fewer bytes written).  On a successful write the
`Update` library fires the `onProgress` callback registered in `begin`, which
sets `_progress = written * 100 / total` and notifies; then the progress field
of the record is persisted.  On a failed write the engine goes to `ERROR` and
notifies without touching the RTC cell. -/
def writeData (dataValid : Bool) (len : Nat) (writeOk : Bool)
    (s : OTAState) : OTAState × Int :=
  if s.status ≠ Status.RECEIVING then
    ({ s with lastError := "OTA not in receiving state" }, -1)
  else if dataValid = false ∨ len = 0 then
    ({ s with lastError := "Invalid data buffer" }, -1)
  else
    let s1 := { s with platOps := s.platOps ++ [PlatOp.opWrite len] }
    if writeOk then
      let w := s1.platWritten + len
      let pct := w * 100 / s1.platTotal
      let s2 := { s1 with platWritten := w, progress := pct }
      let s3 := updateCallback s2 Status.RECEIVING pct "Receiving update..."
      let s4 :=
        if s3.persistent then
          saveToRTC { s3 with rtcData := { s3.rtcData with progress := s3.progress } }
        else s3
      (s4, (len : Int))
    else
      let s2 := { s1 with lastError := "Write error", status := Status.ERROR }
      (updateCallback s2 Status.ERROR s2.progress s2.lastError, -1)

/-- `OTACore::finishUpdate` (`OTACore.cpp` lines 132-159).  `commitOk` is
whether `Update.end(true)` succeeds. -/
def finishUpdate (commitOk : Bool) (s : OTAState) : OTAState × Bool :=
  if s.status ≠ Status.RECEIVING then
    ({ s with lastError := "OTA not in receiving state" }, false)
  else
    let s1 := { s with platOps := s.platOps ++ [PlatOp.opCommit] }
    if commitOk = false then
      let s2 := { s1 with lastError := "Failed to finish update",
                          status := Status.ERROR }
      (updateCallback s2 Status.ERROR s2.progress s2.lastError, false)
    else
      let s2 := { s1 with status := Status.COMPLETE, progress := 100 }
      let s3 :=
        if s2.persistent then
          saveToRTC { s2 with
            rtcData := { s2.rtcData with status := Status.COMPLETE.toCode,
                                         progress := 100 } }
        else s2
      (updateCallback s3 Status.COMPLETE 100 "OTA update completed successfully", true)

/-- `OTACore::abortUpdate` (`OTACore.cpp` lines 161-178): call the platform
abort only from `RECEIVING`, then unconditionally reset to `IDLE`/`0`, set the
last-error text, persist when enabled, and notify. -/
def abortUpdate (s : OTAState) : OTAState :=
  let s1 :=
    if s.status = Status.RECEIVING then
      { s with platOps := s.platOps ++ [PlatOp.opAbort] }
    else s
  let s2 := { s1 with status := Status.IDLE, progress := 0,
                      lastError := "Update aborted" }
  let s3 :=
    if s2.persistent then
      saveToRTC { s2 with
        rtcData := { s2.rtcData with status := Status.IDLE.toCode, progress := 0 } }
    else s2
  updateCallback s3 Status.IDLE 0 "Update aborted"

/-- The state of a freshly booted device before `OTACore::begin` runs: the
initializers of the static members from `OTACore.cpp` lines 7-12, with the RTC cell
holding an arbitrary surviving record `c`. -/
def initState (c : RTCData) : OTAState :=
  { status := Status.IDLE, progress := 0, lastError := "", persistent := false,
    rtcData := ⟨0, 0, 0, 0, 0⟩, cell := c, platTotal := 0, platWritten := 0,
    notifs := [], platOps := [] }

/-- The five fields of the persisted record, for stating bit-level
corruption. -/
inductive RTCField where
  | magic
  | otaEnabled
  | status
  | progress
  | crc
deriving DecidableEq

/-- Bit width of the storage of each field in `RTCData`: `uint32_t`, `bool`
(one byte), 32-bit enum, 32-bit `int`, `uint32_t`. -/
def fieldWidth : RTCField → Nat
  | .magic => 32
  | .otaEnabled => 8
  | .status => 32
  | .progress => 32
  | .crc => 32

/-- Flip bit `i` of a stored machine word. -/
def flipBit (x i : Nat) : Nat := x ^^^ 2 ^ i

/-- Flip bit `i` of field `f` of a stored record. -/
def flipField (r : RTCData) (f : RTCField) (i : Nat) : RTCData :=
  match f with
  | .magic => { r with magic := flipBit r.magic i }
  | .otaEnabled => { r with otaEnabled := flipBit r.otaEnabled i }
  | .status => { r with status := flipBit r.status i }
  | .progress => { r with progress := flipBit r.progress i }
  | .crc => { r with crc := flipBit r.crc i }

end OTAModel

namespace NMModel

/-- `NetworkManager::Status` from `NetworkManager.h`. -/
inductive NStatus where
  | DISCONNECTED
  | CONNECTING
  | CONNECTED
  | FAILED
  | RECONNECTING
deriving DecidableEq

/-- `NetworkManager::MAX_RECONNECT_ATTEMPTS = 5` (`NetworkManager.h`
line 129). -/
def MAX_RECONNECT_ATTEMPTS : Nat := 5

/-- The state of the embedded supervisor: the static members of
`NetworkManager` that the reconnect policy and status notification read or
write, the link-layer flag `wifiConnected` (whether `WiFi.status()` reports
`WL_CONNECTED`), the callback-invocation trace `notifs`, and a trace
`attemptTimes` of the times at which `attemptReconnect` was invoked. -/
structure NMState where
  status : NStatus
  autoReconnect : Bool
  reconnectInterval : Nat
  lastReconnectAttempt : Nat
  reconnectAttempts : Nat
  wifiConnected : Bool
  notifs : List (NStatus × String)
  attemptTimes : List Nat
deriving DecidableEq

/-- `NetworkManager::updateStatus` (`NetworkManager.cpp` lines 170-189):
store the new status and fire the callback only when the value actually
changed. -/
def updateStatus (s : NMState) (newStatus : NStatus) (msg : String) : NMState :=
  if s.status ≠ newStatus then
    { s with status := newStatus, notifs := s.notifs ++ [(newStatus, msg)] }
  else s

/-- `NetworkManager::isConnected` (`NetworkManager.cpp` lines 72-74). -/
def isConnected (s : NMState) : Bool :=
  s.wifiConnected && s.status = NStatus.CONNECTED

/-- `NetworkManager::attemptReconnect` (`NetworkManager.cpp` lines 191-200):
bump the attempt counter, stamp `now`, report `RECONNECTING`, and kick the
radio (the `WiFi.disconnect` / `WiFi.begin` calls are recorded by appending
`now` to the attempt trace). -/
def attemptReconnect (now : Nat) (s : NMState) : NMState :=
  let s1 := { s with reconnectAttempts := s.reconnectAttempts + 1,
                     lastReconnectAttempt := now,
                     attemptTimes := s.attemptTimes ++ [now] }
  updateStatus s1 NStatus.RECONNECTING "Reconnect attempt"

/-- `NetworkManager::handle` (`NetworkManager.cpp` lines 101-117): the
per-tick auto-reconnect policy, with `now` the value of `millis()`.
Unsigned `currentTime - _lastReconnectAttempt` is `Nat` subtraction, which
agrees with the C++ wrap-around subtraction while the clock is at or past the
stamped attempt time. -/
def handle (now : Nat) (s : NMState) : NMState :=
  if s.autoReconnect && !isConnected s && !(s.status = NStatus.CONNECTING) then
    if s.reconnectInterval ≤ now - s.lastReconnectAttempt then
      if s.reconnectAttempts < MAX_RECONNECT_ATTEMPTS then
        attemptReconnect now s
      else
        if s.reconnectInterval * 10 ≤ now - s.lastReconnectAttempt then
          { s with reconnectAttempts := 0 }
        else s
    else s
  else s

/-- A run of the cooperative scheduler: `handle` invoked once per tick at the
given clock readings. -/
def runTicks (s : NMState) (ts : List Nat) : NMState :=
  ts.foldl (fun s t => handle t s) s

/-- A run of status updates through `updateStatus` (the single funnel used by
`connect`, `disconnect`, `handle` and the WiFi event hook). -/
def runUpdates (s : NMState) (us : List (NStatus × String)) : NMState :=
  us.foldl (fun s u => updateStatus s u.1 u.2) s

/-- Specification-side count of actual status changes in an update sequence
starting from status `cur`. -/
def countChanges (cur : NStatus) : List (NStatus × String) → Nat
  | [] => 0
  | u :: rest => if u.1 ≠ cur then 1 + countChanges u.1 rest else countChanges cur rest

end NMModel

namespace WebModel

/-- `OTAWebServer::Event` values reachable from the upload lambda. -/
inductive WEvent where
  | UPLOAD_START
  | UPLOAD_PROGRESS
  | UPLOAD_COMPLETE
  | UPLOAD_ERROR
deriving DecidableEq

/-- The upload-session state of `OTAWebServer` (`_uploadSize`,
`_uploadReceived`), the HTTP responses the upload lambda sends, its
`sendEvent` trace, and a count of how many times the lambda invoked
`OTACore::writeData` (to state whether a chunk was forwarded to the
engine). -/
structure WebState where
  uploadSize : Nat
  uploadReceived : Nat
  responses : List (Nat × String)
  events : List (WEvent × Nat)
  writeDataCalls : Nat
deriving DecidableEq

/-- `OTAWebServer` upload-session statics before any event
(`OTAWebServer.cpp` lines 10-12). -/
def webInit : WebState :=
  { uploadSize := 0, uploadReceived := 0, responses := [], events := [],
    writeDataCalls := 0 }

open OTAModel

/-- The `UPLOAD_FILE_START` branch of the upload lambda
(`OTAWebServer.cpp` lines 129-140): reset the session counters, emit
`UPLOAD_START`, call `OTACore::startUpdate(totalSize)` and answer 500 when it
fails.  `avail` and `openOk` parametrise the platform exactly as in
`startUpdate`. -/
def onStart (total avail : Nat) (openOk : Bool) (w : WebState) (o : OTAState) :
    WebState × OTAState :=
  let w1 := { w with uploadSize := total, uploadReceived := 0,
                     events := w.events ++ [(WEvent.UPLOAD_START, 0)] }
  let p := OTAModel.startUpdate total "" avail openOk o
  if p.2 = false then
    ({ w1 with responses := w1.responses ++ [(500, "Failed to start OTA update")] }, p.1)
  else (w1, p.1)

/-- The `UPLOAD_FILE_WRITE` branch of the upload lambda
(`OTAWebServer.cpp` lines 141-150): accumulate the received-byte total,
forward the chunk to `OTACore::writeData`, answer 500 with the last
engine error when the written count differs from the chunk length, otherwise emit an
`UPLOAD_PROGRESS` event with the session-level percentage. -/
def onChunk (len : Nat) (writeOk : Bool) (w : WebState) (o : OTAState) :
    WebState × OTAState :=
  let w1 := { w with uploadReceived := w.uploadReceived + len }
  let p := OTAModel.writeData true len writeOk o
  let w2 := { w1 with writeDataCalls := w1.writeDataCalls + 1 }
  if p.2 ≠ (len : Int) then
    ({ w2 with responses :=
        w2.responses ++ [(500, "Write error: " ++ p.1.lastError)] }, p.1)
  else
    let pct := w2.uploadReceived * 100 / w2.uploadSize
    ({ w2 with events := w2.events ++ [(WEvent.UPLOAD_PROGRESS, pct)] }, p.1)

/-- The `UPLOAD_FILE_END` branch of the upload lambda
(`OTAWebServer.cpp` lines 151-159): call `OTACore::finishUpdate` and report
completion or the engine error upward. -/
def onEnd (commitOk : Bool) (w : WebState) (o : OTAState) :
    WebState × OTAState :=
  let p := OTAModel.finishUpdate commitOk o
  if p.2 then
    ({ w with events := w.events ++ [(WEvent.UPLOAD_COMPLETE, 100)] }, p.1)
  else
    ({ w with events := w.events ++ [(WEvent.UPLOAD_ERROR, 0)] }, p.1)

end WebModel

namespace OTAModel

/-- An all-zero RTC cell: what the record looks like on first power-up
(no magic marker present). -/
def zeroRaw : RTCData := ⟨0, 0, 0, 0, 0⟩

/-- A valid persisted record with status `RECEIVING` (code 1) and
progress 42, as `saveToRTC` would have written during an interrupted
update: magic set, CRC consistent. -/
def recvCell : RTCData :=
  { magic := 0xDEADBEEF, otaEnabled := 1, status := 1, progress := 42,
    crc := 0xDEADBEEF ^^^ 1 ^^^ 1 ^^^ 42 }

/-- A concrete engine state in the middle of a receiving session with
persistence enabled: declared image size 10000, 1000 bytes written,
the RTC cell holding the matching snapshot. -/
def recvState : OTAState :=
  { status := Status.RECEIVING, progress := 10, lastError := "",
    persistent := true,
    rtcData := { magic := RTC_MAGIC, otaEnabled := 1, status := 1, progress := 10,
                 crc := calculateCRC ⟨RTC_MAGIC, 1, 1, 10, 0⟩ },
    cell := { magic := RTC_MAGIC, otaEnabled := 1, status := 1, progress := 10,
              crc := calculateCRC ⟨RTC_MAGIC, 1, 1, 10, 0⟩ },
    platTotal := 10000, platWritten := 1000, notifs := [], platOps := [] }

/-- An engine freshly initialized without persistence, as the upload
scenarios start from. -/
def engineInit : OTAState := beginCore false (initState zeroRaw)

/-- The engine after `begin(true)` restored the valid `RECEIVING` record
`recvCell` from RTC memory. -/
def restoredReceiving : OTAState := beginCore true (initState recvCell)

/-- The saved snapshot of `recvState` with bit 3 of the persisted progress
field flipped, modelling RTC corruption between a save and the next boot. -/
def corruptedSave : OTAState :=
  { saveToRTC recvState with
      cell := flipField (saveToRTC recvState).cell RTCField.progress 3 }

end OTAModel

namespace NMModel

/-- The supervisor immediately after `NetworkManager::begin` with
auto-reconnect on and the default 30000 ms reconnect interval, while the
link is down. -/
def nmInit : NMState :=
  { status := NStatus.DISCONNECTED, autoReconnect := true,
    reconnectInterval := 30000, lastReconnectAttempt := 0,
    reconnectAttempts := 0, wifiConnected := false, notifs := [],
    attemptTimes := [] }

end NMModel

namespace WebModel

open OTAModel

/-- The 10000-byte upload scenario after `onStart(10000)` and ten successful
1000-byte chunks, on a 2 MiB update partition. -/
def uploadMid : WebState × OTAState :=
  (List.replicate 10 1000).foldl (fun p len => onChunk len true p.1 p.2)
    (onStart 10000 2097152 true webInit engineInit)

/-- The 10000-byte upload scenario after the final `onEnd()` with a
successful platform commit. -/
def uploadDone : WebState × OTAState := onEnd true uploadMid.1 uploadMid.2

/-- The session state after an `onStart(10000)` whose `startUpdate` call
fails because the platform `Update.begin` rejects it. -/
def failedStart : WebState × OTAState := onStart 10000 2097152 false webInit engineInit

/-- A 1000-byte chunk event arriving after the failed start of
`failedStart`. -/
def chunkAfterFailedStart : WebState × OTAState :=
  onChunk 1000 true failedStart.1 failedStart.2

end WebModel

/-!
Helper lemmas about the persistent record, the load/save pair and the
engine initialization, shared by several of the claim theorems below.
-/

namespace OTAModel

/-- Flipping a bit always changes the stored word. -/
theorem flipBit_ne (x i : Nat) : flipBit x i ≠ x := by
  intro h
  have h2 : x ^^^ (x ^^^ 2 ^ i) = x ^^^ x := congrArg (x ^^^ ·) h
  rw [← Nat.xor_assoc, Nat.xor_self, Nat.zero_xor] at h2
  have := Nat.pos_pow_of_pos i (by norm_num : 0 < 2)
  omega

/-- The CRC ignores the `crc` field itself. -/
theorem calculateCRC_crc (r : RTCData) (x : Nat) :
    calculateCRC { r with crc := x } = calculateCRC r := rfl

/-- Flipping a bit of `otaEnabled` flips the same bit of the CRC. -/
theorem calculateCRC_flip_otaEnabled (r : RTCData) (i : Nat) :
    calculateCRC { r with otaEnabled := flipBit r.otaEnabled i } =
      calculateCRC r ^^^ 2 ^ i := by
  simp only [calculateCRC, flipBit]
  ac_rfl

/-- Flipping a bit of `status` flips the same bit of the CRC. -/
theorem calculateCRC_flip_status (r : RTCData) (i : Nat) :
    calculateCRC { r with status := flipBit r.status i } =
      calculateCRC r ^^^ 2 ^ i := by
  simp only [calculateCRC, flipBit]
  ac_rfl

/-- Flipping a bit of `progress` flips the same bit of the CRC. -/
theorem calculateCRC_flip_progress (r : RTCData) (i : Nat) :
    calculateCRC { r with progress := flipBit r.progress i } =
      calculateCRC r ^^^ 2 ^ i := by
  simp only [calculateCRC, flipBit]
  ac_rfl

/-- Any single-bit flip of a consistent record breaks the magic marker or
the CRC equation that `loadFromRTC` checks. -/
theorem flip_breaks_record (r : RTCData) (f : RTCField) (i : Nat)
    (hm : r.magic = RTC_MAGIC) (hc : r.crc = calculateCRC r) :
    (flipField r f i).magic ≠ RTC_MAGIC ∨
    (flipField r f i).crc ≠ calculateCRC (flipField r f i) := by
  cases f with
  | magic =>
    left
    simpa [flipField, hm] using flipBit_ne RTC_MAGIC i
  | otaEnabled =>
    right
    simp only [flipField, calculateCRC_flip_otaEnabled]
    intro h
    rw [hc] at h
    exact flipBit_ne (calculateCRC r) i (by simpa [flipBit] using h.symm)
  | status =>
    right
    simp only [flipField, calculateCRC_flip_status]
    intro h
    rw [hc] at h
    exact flipBit_ne (calculateCRC r) i (by simpa [flipBit] using h.symm)
  | progress =>
    right
    simp only [flipField, calculateCRC_flip_progress]
    intro h
    rw [hc] at h
    exact flipBit_ne (calculateCRC r) i (by simpa [flipBit] using h.symm)
  | crc =>
    right
    simp only [flipField]
    intro h
    exact flipBit_ne r.crc i ((h.trans (calculateCRC_crc r _)).trans hc.symm)

/-- A load over a broken cell reports failure. -/
theorem loadFromRTC_snd_false (s : OTAState)
    (h : s.cell.magic ≠ RTC_MAGIC ∨ s.cell.crc ≠ calculateCRC s.cell) :
    (loadFromRTC s).2 = false := by
  unfold loadFromRTC
  by_cases hp : s.persistent = false
  · rw [if_pos hp]
  · rw [if_neg hp]
    rcases h with h | h
    · simp [h]
    · simp [h]

/-- A load over a consistent cell succeeds and restores status and
progress from it. -/
theorem loadFromRTC_ok (s : OTAState) (hp : s.persistent = true)
    (hm : s.cell.magic = RTC_MAGIC) (hc : s.cell.crc = calculateCRC s.cell) :
    loadFromRTC s =
      ({ s with rtcData := s.cell, status := decodeStatus s.cell.status,
                progress := s.cell.progress }, true) := by
  unfold loadFromRTC
  rw [if_neg (by simp [hp])]
  rw [if_neg (by simp [hm]), if_neg (by simp [hc, calculateCRC])]

/-- On a failed load the in-memory record holds the copied cell and
nothing else changed. -/
theorem loadFromRTC_fail_fst (s : OTAState) (hp : s.persistent = true)
    (h : (loadFromRTC s).2 = false) :
    (loadFromRTC s).1 = { s with rtcData := s.cell } := by
  unfold loadFromRTC at h ⊢
  rw [if_neg (by simp [hp])] at h ⊢
  dsimp only at h ⊢
  split_ifs at h ⊢ with h1 h2
  · rfl
  · rfl

/-- `saveToRTC` with persistence on: record and cell get the in-memory
fields with a freshly computed CRC. -/
theorem saveToRTC_eq (s : OTAState) (hp : s.persistent = true) :
    saveToRTC s =
      { s with rtcData := { s.rtcData with crc := calculateCRC s.rtcData },
               cell := { s.rtcData with crc := calculateCRC s.rtcData } } := by
  unfold saveToRTC
  rw [if_neg (by simp [hp])]

/-- Decoding inverts encoding on every status value. -/
theorem decode_toCode (st : Status) : decodeStatus st.toCode = st := by
  cases st <;> rfl

/-- When the restore fails, `begin(true)` reinitializes the record to the
fresh default and persists it. -/
theorem beginCore_fresh (s : OTAState)
    (h : (loadFromRTC { s with persistent := true, status := Status.IDLE,
                               progress := 0, lastError := "" }).2 = false) :
    (beginCore true s).status = Status.IDLE ∧
    (beginCore true s).progress = 0 ∧
    (beginCore true s).rtcData =
      { magic := RTC_MAGIC, otaEnabled := 1, status := Status.IDLE.toCode,
        progress := 0, crc := calculateCRC ⟨RTC_MAGIC, 1, Status.IDLE.toCode, 0, 0⟩ } ∧
    (beginCore true s).cell = (beginCore true s).rtcData := by
  have hfst := loadFromRTC_fail_fst
    { s with persistent := true, status := Status.IDLE, progress := 0, lastError := "" }
    rfl h
  unfold beginCore
  dsimp only
  rw [if_pos rfl, h]
  simp only [if_neg (by simp : ¬(false = true))]
  rw [hfst]
  simp [saveToRTC, calculateCRC]

/-- When the persisted record is valid, `begin(true)` restores status and
progress from it and touches no platform primitive. -/
theorem beginCore_restore (c : RTCData)
    (hm : c.magic = RTC_MAGIC) (hc : c.crc = calculateCRC c) :
    (beginCore true (initState c)).status = decodeStatus c.status ∧
    (beginCore true (initState c)).progress = c.progress ∧
    (beginCore true (initState c)).platOps = [] ∧
    (beginCore true (initState c)).persistent = true := by
  unfold beginCore
  dsimp only
  rw [loadFromRTC_ok _ rfl hm hc]
  exact ⟨rfl, rfl, rfl, rfl⟩

end OTAModel

namespace OTAModel

/-- Claim C1: a record written by `saveToRTC` (with persistence enabled and
the magic marker in place, as `begin` guarantees) loads back successfully
with the identical status and progress; and flipping any single bit of any
stored field before the load makes `loadFromRTC` report failure (magic or
CRC mismatch), upon which `begin` reinitializes the record to the fresh
default `{magic := RTC_MAGIC, otaEnabled := 1, status := IDLE, progress := 0}`
instead of adopting the corrupted values. -/
theorem C1_rtc_round_trip_single_bit (s : OTAState) (f : RTCField) (i : Nat)
    (hp : s.persistent = true)
    (hm : s.rtcData.magic = RTC_MAGIC)
    (hst : s.rtcData.status = s.status.toCode)
    (hpr : s.rtcData.progress = s.progress)
    (hi : i < fieldWidth f) :
    ((loadFromRTC (saveToRTC s)).2 = true ∧
     (loadFromRTC (saveToRTC s)).1.status = s.status ∧
     (loadFromRTC (saveToRTC s)).1.progress = s.progress) ∧
    (loadFromRTC { saveToRTC s with cell := flipField (saveToRTC s).cell f i }).2 = false ∧
    (beginCore true { saveToRTC s with cell := flipField (saveToRTC s).cell f i }).status = Status.IDLE ∧
    (beginCore true { saveToRTC s with cell := flipField (saveToRTC s).cell f i }).progress = 0 ∧
    (beginCore true { saveToRTC s with cell := flipField (saveToRTC s).cell f i }).rtcData =
      { magic := RTC_MAGIC, otaEnabled := 1, status := Status.IDLE.toCode,
        progress := 0, crc := calculateCRC ⟨RTC_MAGIC, 1, Status.IDLE.toCode, 0, 0⟩ } ∧
    (beginCore true { saveToRTC s with cell := flipField (saveToRTC s).cell f i }).cell =
      (beginCore true { saveToRTC s with cell := flipField (saveToRTC s).cell f i }).rtcData := by
  have hsv := saveToRTC_eq s hp
  have hcellmagic : (saveToRTC s).cell.magic = RTC_MAGIC := by rw [hsv]; exact hm
  have hcellcrc : (saveToRTC s).cell.crc = calculateCRC (saveToRTC s).cell := by
    rw [hsv]
    exact (calculateCRC_crc s.rtcData (calculateCRC s.rtcData)).symm
  have hbreak := flip_breaks_record (saveToRTC s).cell f i hcellmagic hcellcrc
  refine ⟨?_, ?_, ?_⟩
  · have hok := loadFromRTC_ok (saveToRTC s) (by rw [hsv]; exact hp) hcellmagic hcellcrc
    rw [hok]
    refine ⟨rfl, ?_, ?_⟩
    · show decodeStatus (saveToRTC s).cell.status = s.status
      rw [hsv]
      show decodeStatus s.rtcData.status = s.status
      rw [hst, decode_toCode]
    · show (saveToRTC s).cell.progress = s.progress
      rw [hsv]
      exact hpr
  · exact loadFromRTC_snd_false _ hbreak
  · exact beginCore_fresh _ (loadFromRTC_snd_false _ hbreak)

/-- Witness for C1 at the concrete mid-update state `recvState`, flipping
bit 3 of the stored progress field. -/
theorem C1_rtc_round_trip_single_bit_witness :
    (recvState.persistent = true ∧ recvState.rtcData.magic = RTC_MAGIC ∧
     3 < fieldWidth RTCField.progress) ∧
    (((loadFromRTC (saveToRTC recvState)).2 = true ∧
      (loadFromRTC (saveToRTC recvState)).1.status = recvState.status ∧
      (loadFromRTC (saveToRTC recvState)).1.progress = recvState.progress) ∧
     (loadFromRTC corruptedSave).2 = false ∧
     (beginCore true corruptedSave).status = Status.IDLE ∧
     (beginCore true corruptedSave).progress = 0 ∧
     (beginCore true corruptedSave).rtcData =
       { magic := RTC_MAGIC, otaEnabled := 1, status := Status.IDLE.toCode,
         progress := 0, crc := calculateCRC ⟨RTC_MAGIC, 1, Status.IDLE.toCode, 0, 0⟩ } ∧
     (beginCore true corruptedSave).cell = (beginCore true corruptedSave).rtcData) :=
  ⟨⟨rfl, rfl, by decide⟩,
   C1_rtc_round_trip_single_bit recvState RTCField.progress 3 rfl rfl rfl rfl (by decide)⟩

/-- Claim C3: `startUpdate` called while the engine is not idle fails with
the already-in-progress error and leaves status and progress unchanged. -/
theorem C3_startUpdate_not_idle (s : OTAState) (size : Nat) (md5 : String)
    (avail : Nat) (openOk : Bool) (h : s.status ≠ Status.IDLE) :
    (startUpdate size md5 avail openOk s).2 = false ∧
    (startUpdate size md5 avail openOk s).1.status = s.status ∧
    (startUpdate size md5 avail openOk s).1.progress = s.progress ∧
    (startUpdate size md5 avail openOk s).1.lastError = "OTA already in progress" := by
  unfold startUpdate
  rw [if_pos h]
  exact ⟨rfl, rfl, rfl, rfl⟩

/-- Witness for C3 at the receiving state `recvState`. -/
theorem C3_startUpdate_not_idle_witness :
    recvState.status ≠ Status.IDLE ∧
    ((startUpdate 5 "" 100 true recvState).2 = false ∧
     (startUpdate 5 "" 100 true recvState).1.status = recvState.status ∧
     (startUpdate 5 "" 100 true recvState).1.progress = recvState.progress ∧
     (startUpdate 5 "" 100 true recvState).1.lastError = "OTA already in progress") :=
  ⟨by decide, C3_startUpdate_not_idle recvState 5 "" 100 true (by decide)⟩

/-- Claim C4: from idle, a size within the free partition capacity (with the
platform open call accepted) starts the update — status becomes receiving
with progress 0 — while size 0 is rejected with the invalid-size error and a
size above the capacity with the insufficient-space error, in both cases
leaving status and progress unchanged. -/
theorem C4_startUpdate_idle (s : OTAState) (size avail : Nat) (md5 : String)
    (openOk : Bool) (hidle : s.status = Status.IDLE) :
    (0 < size → size ≤ avail → openOk = true →
      (startUpdate size md5 avail openOk s).2 = true ∧
      (startUpdate size md5 avail openOk s).1.status = Status.RECEIVING ∧
      (startUpdate size md5 avail openOk s).1.progress = 0) ∧
    (size = 0 →
      (startUpdate size md5 avail openOk s).2 = false ∧
      (startUpdate size md5 avail openOk s).1.lastError = "Invalid update size" ∧
      (startUpdate size md5 avail openOk s).1.status = s.status ∧
      (startUpdate size md5 avail openOk s).1.progress = s.progress) ∧
    (avail < size →
      (startUpdate size md5 avail openOk s).2 = false ∧
      (startUpdate size md5 avail openOk s).1.lastError = "Update size exceeds available space" ∧
      (startUpdate size md5 avail openOk s).1.status = s.status ∧
      (startUpdate size md5 avail openOk s).1.progress = s.progress) := by
  refine ⟨?_, ?_, ?_⟩
  · intro hpos hle hopen
    subst hopen
    unfold startUpdate
    rw [if_neg (by simp [hidle]), if_neg (by omega), if_neg (by omega)]
    rw [if_neg (by simp)]
    cases hp : s.persistent <;>
      simp [updateCallback, saveToRTC, hp]
  · intro h0
    unfold startUpdate
    rw [if_neg (by simp [hidle]), if_pos h0]
    exact ⟨rfl, rfl, rfl, rfl⟩
  · intro hlt
    unfold startUpdate
    rw [if_neg (by simp [hidle]), if_neg (by omega), if_pos hlt]
    exact ⟨rfl, rfl, rfl, rfl⟩

/-- Witness for C4 at a freshly initialized engine, requesting 1000 bytes
of a 2 MiB partition. -/
theorem C4_startUpdate_idle_witness :
    engineInit.status = Status.IDLE ∧
    ((0 < 1000 → 1000 ≤ 2097152 → true = true →
       (startUpdate 1000 "" 2097152 true engineInit).2 = true ∧
       (startUpdate 1000 "" 2097152 true engineInit).1.status = Status.RECEIVING ∧
       (startUpdate 1000 "" 2097152 true engineInit).1.progress = 0) ∧
     (1000 = 0 →
       (startUpdate 1000 "" 2097152 true engineInit).2 = false ∧
       (startUpdate 1000 "" 2097152 true engineInit).1.lastError = "Invalid update size" ∧
       (startUpdate 1000 "" 2097152 true engineInit).1.status = engineInit.status ∧
       (startUpdate 1000 "" 2097152 true engineInit).1.progress = engineInit.progress) ∧
     (2097152 < 1000 →
       (startUpdate 1000 "" 2097152 true engineInit).2 = false ∧
       (startUpdate 1000 "" 2097152 true engineInit).1.lastError = "Update size exceeds available space" ∧
       (startUpdate 1000 "" 2097152 true engineInit).1.status = engineInit.status ∧
       (startUpdate 1000 "" 2097152 true engineInit).1.progress = engineInit.progress)) :=
  ⟨by decide, C4_startUpdate_idle engineInit 1000 2097152 "" true (by decide)⟩

end OTAModel

namespace OTAModel

/-- Counterexample to claim C2 as stated: after `begin(true)` restores a
valid persisted record whose status is `RECEIVING` (so status 1, progress
42 are adopted), a fresh `startUpdate` is NOT a way to proceed — it fails
with the already-in-progress error and the engine stays in `RECEIVING`. -/
theorem C2_cex_startUpdate_after_restore :
    restoredReceiving.status = Status.RECEIVING ∧
    restoredReceiving.progress = 42 ∧
    (startUpdate 1000 "" 2097152 true restoredReceiving).2 = false ∧
    (startUpdate 1000 "" 2097152 true restoredReceiving).1.lastError =
      "OTA already in progress" ∧
    (startUpdate 1000 "" 2097152 true restoredReceiving).1.status =
      Status.RECEIVING := by decide

/-- Claim C2 (amended): after `begin(true)` restores a valid persisted
record with status `RECEIVING`, the in-memory status and progress equal the
persisted values and no platform primitive is invoked (no flash write is
resumed); the restored status is informational only, but a direct
`startUpdate` fails with the already-in-progress error — a new update
attempt requires `abortUpdate` (returning to idle) followed by a fresh
`startUpdate`, which then succeeds. -/
theorem C2_begin_restore_requires_abort (c : RTCData) (size avail : Nat)
    (hm : c.magic = RTC_MAGIC) (hc : c.crc = calculateCRC c)
    (hst : c.status = Status.RECEIVING.toCode)
    (hpos : 0 < size) (hle : size ≤ avail) :
    (beginCore true (initState c)).status = Status.RECEIVING ∧
    (beginCore true (initState c)).progress = c.progress ∧
    (beginCore true (initState c)).platOps = [] ∧
    (startUpdate size "" avail true (beginCore true (initState c))).2 = false ∧
    (startUpdate size "" avail true (beginCore true (initState c))).1.status = Status.RECEIVING ∧
    (startUpdate size "" avail true (beginCore true (initState c))).1.lastError =
      "OTA already in progress" ∧
    (startUpdate size "" avail true (abortUpdate (beginCore true (initState c)))).2 = true ∧
    (startUpdate size "" avail true (abortUpdate (beginCore true (initState c)))).1.status =
      Status.RECEIVING := by
  obtain ⟨hb1, hb2, hb3, hb4⟩ := beginCore_restore c hm hc
  have hstat : (beginCore true (initState c)).status = Status.RECEIVING := by
    rw [hb1, hst, decode_toCode]
  refine ⟨hstat, ?_, ?_, ?_, ?_, ?_, ?_, ?_⟩
  · exact hb2
  · exact hb3
  · unfold startUpdate
    rw [if_pos (by rw [hstat]; intro h; cases h)]
  · unfold startUpdate
    rw [if_pos (by rw [hstat]; intro h; cases h)]
    exact hstat
  · unfold startUpdate
    rw [if_pos (by rw [hstat]; intro h; cases h)]
  · have hab : (abortUpdate (beginCore true (initState c))).status = Status.IDLE := by
      unfold abortUpdate updateCallback saveToRTC
      dsimp only
      split_ifs <;> rfl
    unfold startUpdate
    rw [if_neg (by rw [hab]; intro h; exact h rfl), if_neg (by omega), if_neg (by omega)]
    rw [if_neg (by simp)]
  · have hab : (abortUpdate (beginCore true (initState c))).status = Status.IDLE := by
      unfold abortUpdate updateCallback saveToRTC
      dsimp only
      split_ifs <;> rfl
    unfold startUpdate
    rw [if_neg (by rw [hab]; intro h; exact h rfl), if_neg (by omega), if_neg (by omega)]
    rw [if_neg (by simp)]
    cases hp : (abortUpdate (beginCore true (initState c))).persistent <;>
      simp [updateCallback, saveToRTC, hp]

/-- Witness for C2 (amended) at the concrete record `recvCell` with a
1000-byte request on a 2 MiB partition. -/
theorem C2_begin_restore_requires_abort_witness :
    (recvCell.magic = RTC_MAGIC ∧ recvCell.crc = calculateCRC recvCell ∧
     recvCell.status = Status.RECEIVING.toCode ∧ 0 < 1000 ∧ 1000 ≤ 2097152) ∧
    (restoredReceiving.status = Status.RECEIVING ∧
     restoredReceiving.progress = recvCell.progress ∧
     restoredReceiving.platOps = [] ∧
     (startUpdate 1000 "" 2097152 true restoredReceiving).2 = false ∧
     (startUpdate 1000 "" 2097152 true restoredReceiving).1.status = Status.RECEIVING ∧
     (startUpdate 1000 "" 2097152 true restoredReceiving).1.lastError =
       "OTA already in progress" ∧
     (startUpdate 1000 "" 2097152 true (abortUpdate restoredReceiving)).2 = true ∧
     (startUpdate 1000 "" 2097152 true (abortUpdate restoredReceiving)).1.status =
       Status.RECEIVING) :=
  ⟨⟨rfl, by decide, rfl, by decide, by decide⟩,
   C2_begin_restore_requires_abort recvCell 1000 2097152 rfl (by decide) rfl
     (by decide) (by decide)⟩

/-- Counterexample to claim C5 as stated: in the concrete receiving state
`recvState` (persistence enabled), a platform-rejected `writeData` moves the
engine to `ERROR` but does NOT persist the record — the RTC cell is
untouched and still holds the `RECEIVING` snapshot (status code 1), because
the error path of `OTACore::writeData` never calls `saveToRTC`. -/
theorem C5_cex_write_fail_not_persisted :
    recvState.persistent = true ∧
    (writeData true 1000 false recvState).1.status = Status.ERROR ∧
    (writeData true 1000 false recvState).1.cell = recvState.cell ∧
    (writeData true 1000 false recvState).1.cell.status = Status.RECEIVING.toCode := by
  decide

/-- Claim C5 (amended): when a `writeData` call in the receiving state has
its platform write fail, the engine transitions to `ERROR`, records the
last-error message and notifies the status callback, but it does not
persist the record — the in-memory record and the RTC cell keep their
previous contents (the write path persists only on success). -/
theorem C5_writeData_fail_no_persist (s : OTAState) (len : Nat)
    (hr : s.status = Status.RECEIVING) (hl : len ≠ 0) :
    (writeData true len false s).2 = -1 ∧
    (writeData true len false s).1.status = Status.ERROR ∧
    (writeData true len false s).1.lastError = "Write error" ∧
    (writeData true len false s).1.notifs =
      s.notifs ++ [⟨Status.ERROR, s.progress, "Write error"⟩] ∧
    (writeData true len false s).1.cell = s.cell ∧
    (writeData true len false s).1.rtcData = s.rtcData ∧
    (writeData true len false s).1.platOps = s.platOps ++ [PlatOp.opWrite len] := by
  unfold writeData
  rw [if_neg (by simp [hr]), if_neg (by simp [hl])]
  rw [if_neg (by simp)]
  exact ⟨rfl, rfl, rfl, rfl, rfl, rfl, rfl⟩

/-- Witness for C5 (amended) at `recvState` with a rejected 1000-byte
write. -/
theorem C5_writeData_fail_no_persist_witness :
    (recvState.status = Status.RECEIVING ∧ (1000 : Nat) ≠ 0) ∧
    ((writeData true 1000 false recvState).2 = -1 ∧
     (writeData true 1000 false recvState).1.status = Status.ERROR ∧
     (writeData true 1000 false recvState).1.lastError = "Write error" ∧
     (writeData true 1000 false recvState).1.notifs =
       recvState.notifs ++ [⟨Status.ERROR, recvState.progress, "Write error"⟩] ∧
     (writeData true 1000 false recvState).1.cell = recvState.cell ∧
     (writeData true 1000 false recvState).1.rtcData = recvState.rtcData ∧
     (writeData true 1000 false recvState).1.platOps =
       recvState.platOps ++ [PlatOp.opWrite 1000]) :=
  ⟨⟨rfl, by decide⟩, C5_writeData_fail_no_persist recvState 1000 rfl (by decide)⟩

/-- Claim C10: `abortUpdate` from any engine state resets status to idle
and progress to 0, sets the last error to the abort message, notifies the
callback, persists the reset record exactly when persistence is enabled,
and invokes the platform abort primitive exactly when the prior status was
`RECEIVING`. -/
theorem C10_abortUpdate_spec (s : OTAState) :
    (abortUpdate s).status = Status.IDLE ∧
    (abortUpdate s).progress = 0 ∧
    (abortUpdate s).lastError = "Update aborted" ∧
    (abortUpdate s).notifs = s.notifs ++ [⟨Status.IDLE, 0, "Update aborted"⟩] ∧
    (s.persistent = true →
      (abortUpdate s).cell =
        { s.rtcData with status := Status.IDLE.toCode, progress := 0,
                         crc := calculateCRC { s.rtcData with status := Status.IDLE.toCode, progress := 0 } }) ∧
    (s.persistent = false → (abortUpdate s).cell = s.cell) ∧
    ((abortUpdate s).platOps =
      if s.status = Status.RECEIVING then s.platOps ++ [PlatOp.opAbort] else s.platOps) := by
  unfold abortUpdate
  by_cases hr : s.status = Status.RECEIVING <;>
    cases hp : s.persistent <;>
      simp [hr, hp, saveToRTC, updateCallback]

/-- Witness for C10 at the persistent receiving state `recvState`. -/
theorem C10_abortUpdate_spec_witness :
    (abortUpdate recvState).status = Status.IDLE ∧
    (abortUpdate recvState).lastError = "Update aborted" ∧
    (abortUpdate recvState).cell =
      { recvState.rtcData with status := Status.IDLE.toCode, progress := 0,
                               crc := calculateCRC { recvState.rtcData with status := Status.IDLE.toCode, progress := 0 } } ∧
    (abortUpdate recvState).platOps =
      (if recvState.status = Status.RECEIVING then
        recvState.platOps ++ [PlatOp.opAbort] else recvState.platOps) :=
  ⟨(C10_abortUpdate_spec recvState).1,
   (C10_abortUpdate_spec recvState).2.2.1,
   (C10_abortUpdate_spec recvState).2.2.2.2.1 rfl,
   (C10_abortUpdate_spec recvState).2.2.2.2.2.2⟩

end OTAModel

namespace NMModel

/-- All fields except `status` and the notification trace are untouched by
`updateStatus`, and the stored status always equals the requested one. -/
theorem updateStatus_fields (s : NMState) (n : NStatus) (m : String) :
    (updateStatus s n m).autoReconnect = s.autoReconnect ∧
    (updateStatus s n m).wifiConnected = s.wifiConnected ∧
    (updateStatus s n m).reconnectInterval = s.reconnectInterval ∧
    (updateStatus s n m).lastReconnectAttempt = s.lastReconnectAttempt ∧
    (updateStatus s n m).reconnectAttempts = s.reconnectAttempts ∧
    (updateStatus s n m).attemptTimes = s.attemptTimes ∧
    (updateStatus s n m).status = n := by
  unfold updateStatus
  split
  · exact ⟨rfl, rfl, rfl, rfl, rfl, rfl, rfl⟩
  · next h =>
    push_neg at h
    exact ⟨rfl, rfl, rfl, rfl, rfl, rfl, h⟩

/-- Bookkeeping done by one reconnect attempt. -/
theorem attemptReconnect_fields (t : Nat) (s : NMState) :
    (attemptReconnect t s).autoReconnect = s.autoReconnect ∧
    (attemptReconnect t s).wifiConnected = s.wifiConnected ∧
    (attemptReconnect t s).reconnectInterval = s.reconnectInterval ∧
    (attemptReconnect t s).lastReconnectAttempt = t ∧
    (attemptReconnect t s).reconnectAttempts = s.reconnectAttempts + 1 ∧
    (attemptReconnect t s).attemptTimes = s.attemptTimes ++ [t] ∧
    (attemptReconnect t s).status = NStatus.RECONNECTING := by
  unfold attemptReconnect
  have h := updateStatus_fields
    { s with reconnectAttempts := s.reconnectAttempts + 1,
             lastReconnectAttempt := t,
             attemptTimes := s.attemptTimes ++ [t] } NStatus.RECONNECTING "Reconnect attempt"
  exact ⟨h.1, h.2.1, h.2.2.1, h.2.2.2.1, h.2.2.2.2.1, h.2.2.2.2.2.1, h.2.2.2.2.2.2⟩

/-- The reconnect policy of `handle` with the disconnected guard
discharged. -/
theorem handle_open (s : NMState) (now : Nat) (hA : s.autoReconnect = true)
    (hW : s.wifiConnected = false) (hC : s.status ≠ NStatus.CONNECTING) :
    handle now s =
      if s.reconnectInterval ≤ now - s.lastReconnectAttempt then
        if s.reconnectAttempts < MAX_RECONNECT_ATTEMPTS then
          attemptReconnect now s
        else
          if s.reconnectInterval * 10 ≤ now - s.lastReconnectAttempt then
            { s with reconnectAttempts := 0 }
          else s
      else s := by
  unfold handle
  rw [if_pos]
  simp [hA, hW, isConnected, hC]

/-- A nondecreasing chain stays a chain when its base is lowered. -/
theorem chain_le_of_le {b a : Nat} {l : List Nat} (h : b ≤ a)
    (hc : List.Chain (fun x y => x ≤ y) a l) :
    List.Chain (fun x y => x ≤ y) b l := by
  cases l with
  | nil => exact List.Chain.nil
  | cons c cs =>
    obtain ⟨h1, h2⟩ := List.chain_cons.mp hc
    exact List.chain_cons.mpr ⟨le_trans h h1, h2⟩

/-- Unfolding one scheduler tick of a run. -/
theorem runTicks_cons (s : NMState) (t : Nat) (ts : List Nat) :
    runTicks s (t :: ts) = runTicks (handle t s) ts := rfl

/-- Invariant of any disconnected run: reconnect attempts are spaced at
least one reconnect interval apart and the attempt counter never exceeds
the cap. -/
theorem runTicks_spacing (T : Nat) (ts : List Nat) (s : NMState)
    (hT : s.reconnectInterval = T)
    (hA : s.autoReconnect = true) (hW : s.wifiConnected = false)
    (hC : s.status ≠ NStatus.CONNECTING)
    (hchain : List.Chain (fun a b => a ≤ b) s.lastReconnectAttempt ts)
    (hsp : List.Chain' (fun a b => a + T ≤ b) s.attemptTimes)
    (hlast : ∀ a ∈ s.attemptTimes, a ≤ s.lastReconnectAttempt)
    (hcap : s.reconnectAttempts ≤ MAX_RECONNECT_ATTEMPTS) :
    List.Chain' (fun a b => a + T ≤ b) (runTicks s ts).attemptTimes ∧
    (runTicks s ts).reconnectAttempts ≤ MAX_RECONNECT_ATTEMPTS := by
  induction ts generalizing s with
  | nil => exact ⟨hsp, hcap⟩
  | cons t rest ih =>
    obtain ⟨hle, hchain2⟩ := List.chain_cons.mp hchain
    rw [runTicks_cons]
    rw [handle_open s t hA hW hC]
    split_ifs with h1 h2 h3
    · obtain ⟨fA, fW, fI, fL, fN, fT, fS⟩ := attemptReconnect_fields t s
      apply ih
      · rw [fI, hT]
      · rw [fA, hA]
      · rw [fW, hW]
      · rw [fS]; intro hcon; cases hcon
      · rw [fL]; exact hchain2
      · rw [fT]
        rw [List.chain'_append]
        refine ⟨hsp, List.chain'_singleton t, ?_⟩
        intro x hx y hy
        simp at hy
        subst hy
        have hxmem : x ∈ s.attemptTimes := by
          obtain ⟨hne, hxl⟩ := List.mem_getLast?_eq_getLast hx
          rw [hxl]
          exact List.getLast_mem hne
        have hxle := hlast x hxmem
        omega
      · rw [fT, fL]
        intro a ha
        rcases List.mem_append.mp ha with ha | ha
        · exact le_trans (hlast a ha) hle
        · simp at ha; omega
      · rw [fN]; omega
    · exact ih { s with reconnectAttempts := 0 } hT hA hW hC
        (chain_le_of_le hle hchain2) hsp hlast (Nat.zero_le _)
    · exact ih s hT hA hW hC (chain_le_of_le hle hchain2) hsp hlast hcap
    · exact ih s hT hA hW hC (chain_le_of_le hle hchain2) hsp hlast hcap

/-- Claim C8: while disconnected with auto-reconnect on, a tick issues a
reconnect attempt exactly when one reconnect interval elapsed since the
last stamp and fewer than `MAX_RECONNECT_ATTEMPTS = 5` attempts were made;
an issued attempt stamps the time and bumps the counter; at the cap no
attempt is issued and the counter resets exactly once ten intervals have
elapsed since the last attempt, without issuing an attempt in the reset
tick; the very next eligible tick after a reset issues again (the cycle
resumes); and over any whole run the issued attempts are spaced at least
one interval apart with the counter never exceeding 5. -/
theorem C8_reconnect_policy (s : NMState) (now now2 : Nat) (ts : List Nat)
    (hA : s.autoReconnect = true) (hW : s.wifiConnected = false)
    (hC : s.status ≠ NStatus.CONNECTING)
    (hchain : List.Chain (fun a b => a ≤ b) s.lastReconnectAttempt ts)
    (hempty : s.attemptTimes = [])
    (hcap : s.reconnectAttempts ≤ MAX_RECONNECT_ATTEMPTS) :
    ((handle now s).attemptTimes = s.attemptTimes ++ [now] ↔
      (s.reconnectInterval ≤ now - s.lastReconnectAttempt ∧
       s.reconnectAttempts < MAX_RECONNECT_ATTEMPTS)) ∧
    (s.reconnectInterval ≤ now - s.lastReconnectAttempt →
     s.reconnectAttempts < MAX_RECONNECT_ATTEMPTS →
      (handle now s).lastReconnectAttempt = now ∧
      (handle now s).reconnectAttempts = s.reconnectAttempts + 1) ∧
    (MAX_RECONNECT_ATTEMPTS ≤ s.reconnectAttempts →
      (handle now s).attemptTimes = s.attemptTimes ∧
      (handle now s).lastReconnectAttempt = s.lastReconnectAttempt ∧
      ((handle now s).reconnectAttempts = 0 ↔
        s.reconnectInterval * 10 ≤ now - s.lastReconnectAttempt)) ∧
    (MAX_RECONNECT_ATTEMPTS ≤ s.reconnectAttempts →
     s.reconnectInterval * 10 ≤ now - s.lastReconnectAttempt →
     s.reconnectInterval ≤ now2 - s.lastReconnectAttempt →
      (handle now2 (handle now s)).attemptTimes = s.attemptTimes ++ [now2]) ∧
    (List.Chain' (fun a b => a + s.reconnectInterval ≤ b) (runTicks s ts).attemptTimes ∧
     (runTicks s ts).reconnectAttempts ≤ MAX_RECONNECT_ATTEMPTS) := by
  have hopen := handle_open s now hA hW hC
  obtain ⟨fA, fW, fI, fL, fN, fT, fS⟩ := attemptReconnect_fields now s
  refine ⟨?_, ?_, ?_, ?_, ?_⟩
  · rw [hopen]
    split_ifs with h1 h2 h3
    · simp only [fT]
      exact ⟨fun _ => ⟨h1, h2⟩, fun _ => trivial⟩
    · constructor
      · intro habs
        have := congrArg List.length habs
        simp at this
      · rintro ⟨-, hlt⟩
        exact absurd hlt h2
    · constructor
      · intro habs
        have := congrArg List.length habs
        simp at this
      · rintro ⟨-, hlt⟩
        exact absurd hlt h2
    · constructor
      · intro habs
        have := congrArg List.length habs
        simp at this
      · rintro ⟨hle, -⟩
        exact absurd hle h1
  · intro h1 h2
    rw [hopen, if_pos h1, if_pos h2]
    exact ⟨fL, fN⟩
  · intro h5
    have h2 : ¬ s.reconnectAttempts < MAX_RECONNECT_ATTEMPTS := by omega
    rw [hopen]
    split_ifs with h1 h3
    · exact ⟨rfl, rfl, by simp [h3]⟩
    · refine ⟨rfl, rfl, ?_⟩
      constructor
      · intro h0
        simp [MAX_RECONNECT_ATTEMPTS] at h5
        omega
      · intro h10
        exact absurd h10 h3
    · refine ⟨rfl, rfl, ?_⟩
      constructor
      · intro h0
        simp [MAX_RECONNECT_ATTEMPTS] at h5
        omega
      · intro h10
        exfalso
        apply h1
        have : s.reconnectInterval ≤ s.reconnectInterval * 10 := by omega
        omega
  · intro h5 h10 hn2
    have h1 : s.reconnectInterval ≤ now - s.lastReconnectAttempt := by omega
    have h2 : ¬ s.reconnectAttempts < MAX_RECONNECT_ATTEMPTS := by omega
    rw [hopen, if_pos h1, if_neg h2, if_pos h10]
    have hopen2 := handle_open { s with reconnectAttempts := 0 } now2 hA hW hC
    rw [hopen2, if_pos hn2, if_pos (by simp [MAX_RECONNECT_ATTEMPTS])]
    exact (attemptReconnect_fields now2 _).2.2.2.2.2.1
  · refine runTicks_spacing s.reconnectInterval ts s rfl hA hW hC hchain ?_ ?_ hcap
    · rw [hempty]
      exact List.chain'_nil
    · rw [hempty]
      intro a ha
      cases ha

/-- Witness for C8: from the freshly begun supervisor, the tick at 30000 ms
issues the first reconnect attempt. -/
theorem C8_reconnect_policy_witness :
    (handle 30000 nmInit).attemptTimes = nmInit.attemptTimes ++ [30000] :=
  ((C8_reconnect_policy nmInit 30000 400000 [30000, 70000] rfl rfl (by decide)
      (List.chain_cons.mpr ⟨by decide, List.chain_cons.mpr ⟨by decide, List.Chain.nil⟩⟩)
      rfl (by decide)).1).mpr (by decide)

/-- Claim C9: a status update notifies the registered observer exactly when
the new value differs from the current one — one notification per actual
change, none when the status is repeated — and over any sequence of updates
the number of notifications equals the number of actual changes. -/
theorem C9_notify_on_change (s : NMState) (newStatus : NStatus) (msg : String)
    (us : List (NStatus × String)) :
    (s.status ≠ newStatus →
      updateStatus s newStatus msg =
        { s with status := newStatus, notifs := s.notifs ++ [(newStatus, msg)] }) ∧
    (s.status = newStatus → updateStatus s newStatus msg = s) ∧
    (runUpdates s us).notifs.length = s.notifs.length + countChanges s.status us := by
  refine ⟨fun h => by simp [updateStatus, h], fun h => by simp [updateStatus, h], ?_⟩
  induction us generalizing s with
  | nil => simp [runUpdates, countChanges]
  | cons u rest ih =>
    by_cases h : u.1 = s.status
    · have : updateStatus s u.1 u.2 = s := by simp [updateStatus, h.symm]
      calc (runUpdates s (u :: rest)).notifs.length
          = (runUpdates (updateStatus s u.1 u.2) rest).notifs.length := rfl
        _ = (runUpdates s rest).notifs.length := by rw [this]
        _ = s.notifs.length + countChanges s.status rest := ih s
        _ = s.notifs.length + countChanges s.status (u :: rest) := by
              simp [countChanges, h]
    · have hne : s.status ≠ u.1 := fun hh => h hh.symm
      have hstep : updateStatus s u.1 u.2 =
          { s with status := u.1, notifs := s.notifs ++ [(u.1, u.2)] } := by
        simp [updateStatus, hne]
      calc (runUpdates s (u :: rest)).notifs.length
          = (runUpdates (updateStatus s u.1 u.2) rest).notifs.length := rfl
        _ = (runUpdates { s with status := u.1, notifs := s.notifs ++ [(u.1, u.2)] }
              rest).notifs.length := by rw [hstep]
        _ = (s.notifs ++ [(u.1, u.2)]).length + countChanges u.1 rest := ih _
        _ = s.notifs.length + countChanges s.status (u :: rest) := by
              simp [countChanges, h]
              omega

/-- Witness for C9: a run with two repeated `CONNECTED` updates and one
change to `DISCONNECTED` produces exactly two notifications. -/
theorem C9_notify_on_change_witness :
    (runUpdates nmInit
      [(NStatus.CONNECTED, "a"), (NStatus.CONNECTED, "b"),
       (NStatus.DISCONNECTED, "c")]).notifs.length =
      nmInit.notifs.length +
        countChanges nmInit.status
          [(NStatus.CONNECTED, "a"), (NStatus.CONNECTED, "b"),
           (NStatus.DISCONNECTED, "c")] :=
  (C9_notify_on_change nmInit NStatus.CONNECTED "x"
    [(NStatus.CONNECTED, "a"), (NStatus.CONNECTED, "b"),
     (NStatus.DISCONNECTED, "c")]).2.2

end NMModel

namespace WebModel

open OTAModel

/-- Claim C6: the end-to-end upload of a 10000-byte image in ten 1000-byte
chunks — `onStart(10000)`, ten successful `onChunk(1000)` events, then
`onEnd()` with a successful commit — leaves the session received-byte count
at 10000, the engine status `COMPLETE` and the engine progress 100. -/
theorem C6_upload_end_to_end :
    uploadDone.1.uploadReceived = 10000 ∧
    uploadDone.2.status = Status.COMPLETE ∧
    uploadDone.2.progress = 100 := by decide

/-- Counterexample to claim C7 as stated: after an `onStart` whose
`startUpdate` fails (the adapter did send the 500 error response), the next
chunk event is NOT rejected without forwarding to the engine — the upload
lambda still invokes `OTACore::writeData` for it (the call counter goes
from 0 to 1), because the lambda keeps no per-session failure flag. -/
theorem C7_cex_chunk_forwarded_after_failed_start :
    failedStart.1.responses = [(500, "Failed to start OTA update")] ∧
    chunkAfterFailedStart.1.writeDataCalls = 1 := by decide

/-- Claim C7 (amended): when the start event fails, the adapter surfaces a
500 error response; each subsequent chunk event of the session is still
forwarded to the engine `writeData`, which rejects it — outside the
receiving state no platform write happens, status and progress are
unchanged — and the adapter then surfaces a 500 error response carrying the
not-receiving engine error. -/
theorem C7_chunk_after_failed_start (w : WebState) (o : OTAState) (len : Nat)
    (writeOk : Bool) (h : o.status ≠ Status.RECEIVING) (hl : 0 < len) :
    (onChunk len writeOk w o).1.writeDataCalls = w.writeDataCalls + 1 ∧
    (onChunk len writeOk w o).2.platOps = o.platOps ∧
    (onChunk len writeOk w o).2.status = o.status ∧
    (onChunk len writeOk w o).2.progress = o.progress ∧
    (onChunk len writeOk w o).1.responses =
      w.responses ++ [(500, "Write error: " ++ "OTA not in receiving state")] := by
  have hw : OTAModel.writeData true len writeOk o =
      ({ o with lastError := "OTA not in receiving state" }, -1) := by
    unfold OTAModel.writeData
    rw [if_pos h]
  unfold onChunk
  rw [hw]
  dsimp only
  rw [if_pos (by intro hh; omega)]
  exact ⟨rfl, rfl, rfl, rfl, rfl⟩

/-- Witness for C7 (amended) at the session whose start failed. -/
theorem C7_chunk_after_failed_start_witness :
    (failedStart.2.status ≠ Status.RECEIVING ∧ (0 : Nat) < 1000) ∧
    (chunkAfterFailedStart.1.writeDataCalls = failedStart.1.writeDataCalls + 1 ∧
     chunkAfterFailedStart.2.platOps = failedStart.2.platOps ∧
     chunkAfterFailedStart.2.status = failedStart.2.status ∧
     chunkAfterFailedStart.2.progress = failedStart.2.progress ∧
     chunkAfterFailedStart.1.responses =
       failedStart.1.responses ++
         [(500, "Write error: " ++ "OTA not in receiving state")]) :=
  ⟨⟨by decide, by decide⟩,
   C7_chunk_after_failed_start failedStart.1 failedStart.2 1000 true
     (by decide) (by decide)⟩

end WebModel
